import Mathlib

/-!
Verification of the identity/access subsystem of the osint-platform backend.

Shallow embedding of:
- `backend/app/core/security.py` (SecurityManager: password hashing, password
  strength, JWT issuance/verification, TOTP verification, RBAC tables)
- `backend/app/core/config.py` (Settings)
- `backend/app/core/database.py` (SessionManager)
- `backend/app/api/v1/auth.py` (register, login, verify_mfa, logout,
  request_password_reset, confirm_password_reset)
- `backend/app/api/v1/deps.py` (get_current_user token acceptance)

Time is modelled as seconds (Nat).  Randomness (bcrypt salts, fresh session
ids) is passed in as explicit parameters.  Python exceptions are modelled with
`Except`/`Option`; a FastAPI `HTTPException` is an `HTTPError` value.
-/

/-- HTTP error raised by an endpoint: `HTTPException(status_code, detail)`. -/
structure HTTPError where
  status : Nat
  detail : String
deriving DecidableEq, Repr

/-- Application settings (`backend/app/core/config.py`).  The source
`Settings` class defines `JWT_SECRET`/`JWT_ALGORITHM` (used by
`api/v1/deps.py`), while `core/security.py` reads `SECRET_KEY`, `ALGORITHM`,
`PASSWORD_MIN_LENGTH`, `ACCESS_TOKEN_EXPIRE_MINUTES` and
`REFRESH_TOKEN_EXPIRE_DAYS`, which are absent from the source config class
(the repository has two competing config conventions).  Modelled from the
spec: the missing numeric fields take the defaults of spec section 4 (access
60 minutes, refresh 30 days, password minimum length 8).  The signing
algorithm is fixed (HS256) and therefore not modelled. -/
structure Settings where
  SECRET_KEY : String
  JWT_SECRET : String
  ACCESS_TOKEN_EXPIRE_MINUTES : Nat
  REFRESH_TOKEN_EXPIRE_DAYS : Nat
  PASSWORD_MIN_LENGTH : Nat
deriving DecidableEq, Repr

/-- Default settings: spec defaults for the fields missing from the source
config; `JWT_SECRET` default from `config.py`. -/
def defaultSettings : Settings :=
  { SECRET_KEY := "your-super-secret-jwt-key"
    JWT_SECRET := "your-super-secret-jwt-key"
    ACCESS_TOKEN_EXPIRE_MINUTES := 60
    REFRESH_TOKEN_EXPIRE_DAYS := 30
    PASSWORD_MIN_LENGTH := 8 }

/-! ## Password hasher (`SecurityManager.hash_password` / `verify_password`)

The source delegates to passlib's bcrypt (`pwd_context.hash` /
`pwd_context.verify`).  bcrypt uses only the first 72 bytes of the password;
passlib's bcrypt handler silently truncates longer inputs
(`truncate_error=False` is the default).  The model keeps the per-call random
salt explicit and represents the digest extensionally by the truncated
password (bcrypt collisions for a fixed salt are assumed absent, which is the
assumption most favourable to the spec).  Inputs are modelled at character
granularity; for the ASCII inputs used below characters and bytes agree. -/

/-- Maximum number of password bytes bcrypt consumes. -/
def BCRYPT_TRUNCATE : Nat := 72

/-- Stored bcrypt hash: salt plus digest of the truncated password. -/
structure BcryptHash where
  salt : Nat
  digest : List Char
deriving DecidableEq, Repr

/-- Hash a password using bcrypt (`SecurityManager.hash_password`, security.py
lines 41-51).  The per-call random salt is an explicit parameter. -/
def hash_password (salt : Nat) (password : String) : BcryptHash :=
  { salt := salt, digest := password.toList.take BCRYPT_TRUNCATE }

/-- Verify a password against its stored hash
(`SecurityManager.verify_password`, security.py lines 53-64): recompute the
digest with the stored salt and compare. -/
def verify_password (plain_password : String) (hashed_password : BcryptHash) : Bool :=
  plain_password.toList.take BCRYPT_TRUNCATE == hashed_password.digest

/-! ## Password strength (`SecurityManager.validate_password_strength`,
security.py lines 66-137).  Character classes follow the Python `str`
predicates, modelled on ASCII. -/

/-- Result dictionary of `validate_password_strength` (the `feedback`
message list is not modelled; the claims do not mention it). -/
structure StrengthResult where
  valid : Bool
  score : Nat
  min_length : Bool
  has_upper : Bool
  has_lower : Bool
  has_digit : Bool
  has_special : Bool
deriving DecidableEq, Repr

/-- Special characters accepted by the strength check (security.py line 119).
Literal braces are escaped for Lean string syntax. -/
def special_chars : List Char := "!@#$%^&*()_+-=[]\x7b\x7d|;:,.<>?".toList

/-- Python substring containment `needle in hay` on character lists. -/
def containsSub (needle hay : List Char) : Bool :=
  (List.range (hay.length + 1)).any fun j => (hay.drop j).take needle.length == needle

/-- Python expression `any(password[i:i+3] in password[i+3:] for i in
range(len(password)-2))` from security.py line 130. -/
def has_repeated_triple (cs : List Char) : Bool :=
  (List.range (cs.length - 2)).any fun i =>
    containsSub ((cs.drop i).take 3) (cs.drop (i + 3))

/-- Validate password strength (security.py lines 66-137).  The source
mutates a result dict: each of the five requirement checks adds 20 to the
score (a failed minimum-length check also clears `valid`), then two bonus
checks add 10 each (length at least 12; no 3-character substring repeated
later), and finally `valid` is cleared unless all requirements hold. -/
def validate_password_strength (s : Settings) (password : String) : StrengthResult :=
  let cs := password.toList
  let min_length := decide (s.PASSWORD_MIN_LENGTH ≤ cs.length)
  let has_upper := cs.any Char.isUpper
  let has_lower := cs.any Char.isLower
  let has_digit := cs.any Char.isDigit
  let has_special := cs.any fun c => special_chars.contains c
  -- score accumulation in source order
  let score :=
    (if min_length then 20 else 0) + (if has_upper then 20 else 0) +
    (if has_lower then 20 else 0) + (if has_digit then 20 else 0) +
    (if has_special then 20 else 0) +
    (if 12 ≤ cs.length then 10 else 0) +
    (if has_repeated_triple cs then 0 else 10)
  -- `valid` starts True, is cleared by a failed length check, and is cleared
  -- at the end unless all requirement flags hold
  let valid := min_length && (min_length && has_upper && has_lower && has_digit && has_special)
  { valid := valid, score := score, min_length := min_length,
    has_upper := has_upper, has_lower := has_lower,
    has_digit := has_digit, has_special := has_special }

/-! ## Token service (JWT layer of `SecurityManager`)

A JWT is modelled as its decoded claim set plus the key it was signed with;
`jwt.decode(token, key, ...)` succeeds exactly when the signing key matches
and the `exp` claim is not in the past (python-jose validates `exp` during
decode and raises `ExpiredSignatureError`, a `JWTError`, when `exp < now`). -/

/-- Decoded JWT claim set.  Every claim any issuer in the source writes is a
field; claims an issuer does not set stay at their default. -/
structure Payload where
  userId : Option String := none
  email : Option String := none
  role : Option String := none
  permissions : List String := []
  mfaRequired : Bool := false
  sub : Option String := none
  typ : Option String := none
  exp : Nat := 0
  iat : Option Nat := none
deriving DecidableEq, Repr

/-- Signed token: payload plus signing key. -/
structure Token where
  payload : Payload
  key : String
deriving DecidableEq, Repr

/-- Claim dictionary passed by callers to `create_access_token` /
`create_refresh_token` (the `data` argument, before `exp`/`iat`/`type` are
added). -/
structure TokenData where
  userId : Option String := none
  email : Option String := none
  role : Option String := none
  permissions : List String := []
  mfaRequired : Bool := false
  sub : Option String := none
deriving DecidableEq, Repr

/-- Embed a caller claim dictionary into a payload. -/
def TokenData.toPayload (d : TokenData) : Payload :=
  { userId := d.userId, email := d.email, role := d.role,
    permissions := d.permissions, mfaRequired := d.mfaRequired, sub := d.sub }

/-- Semantics of `jwt.decode(token, key, algorithms=[...])`: the payload when
the signature checks out under `key` and the token is not expired, otherwise
a `JWTError` (modelled as `none`).  python-jose accepts a token whose `exp`
equals the current time and rejects once `exp < now`. -/
def jwtDecode (key : String) (now : Nat) (t : Token) : Option Payload :=
  if t.key = key ∧ now ≤ t.payload.exp then some t.payload else none

/-- Create a JWT access token (`SecurityManager.create_access_token`,
security.py lines 140-169).  `expires_delta` is in seconds; the default is
`ACCESS_TOKEN_EXPIRE_MINUTES` minutes. -/
def create_access_token (s : Settings) (data : TokenData) (expires_delta : Option Nat)
    (now : Nat) : Token :=
  { payload := { data.toPayload with
      typ := some "access"
      exp := now + expires_delta.getD (s.ACCESS_TOKEN_EXPIRE_MINUTES * 60)
      iat := some now }
    key := s.SECRET_KEY }

/-- Create a JWT refresh token (`SecurityManager.create_refresh_token`,
security.py lines 171-200); the default lifetime is
`REFRESH_TOKEN_EXPIRE_DAYS` days. -/
def create_refresh_token (s : Settings) (data : TokenData) (expires_delta : Option Nat)
    (now : Nat) : Token :=
  { payload := { data.toPayload with
      typ := some "refresh"
      exp := now + expires_delta.getD (s.REFRESH_TOKEN_EXPIRE_DAYS * 86400)
      iat := some now }
    key := s.SECRET_KEY }

/-- Verify and decode a JWT (`SecurityManager.verify_token`, security.py
lines 202-223): `none` models the raised 401 `HTTPException`. -/
def verify_token (s : Settings) (now : Nat) (t : Token) : Option Payload :=
  jwtDecode s.SECRET_KEY now t

/-- Error raised by `verify_token` on any `JWTError` (security.py lines
218-223). -/
def credentialsError : HTTPError := { status := 401, detail := "Could not validate credentials" }

/-- Create an email-verification token
(`SecurityManager.create_email_verification_token`, security.py lines
225-242): carries only `email`, `type` and a 24-hour `exp`. -/
def create_email_verification_token (s : Settings) (email : String) (now : Nat) : Token :=
  { payload := { email := some email, typ := some "email_verification", exp := now + 24 * 3600 }
    key := s.SECRET_KEY }

/-- Verify an email-verification token
(`SecurityManager.verify_email_verification_token`, security.py lines
244-260): decode, and return the `email` claim only when the `type` claim is
`email_verification`; any `JWTError` yields `none`. -/
def verify_email_verification_token (s : Settings) (now : Nat) (t : Token) : Option String :=
  match jwtDecode s.SECRET_KEY now t with
  | some payload => if payload.typ = some "email_verification" then payload.email else none
  | none => none

/-- Create a password-reset token
(`SecurityManager.create_password_reset_token`, security.py lines 262-279):
carries only `email`, `type` and a 1-hour `exp`. -/
def create_password_reset_token (s : Settings) (email : String) (now : Nat) : Token :=
  { payload := { email := some email, typ := some "password_reset", exp := now + 3600 }
    key := s.SECRET_KEY }

/-- Verify a password-reset token
(`SecurityManager.verify_password_reset_token`, security.py lines 281-297). -/
def verify_password_reset_token (s : Settings) (now : Nat) (t : Token) : Option String :=
  match jwtDecode s.SECRET_KEY now t with
  | some payload => if payload.typ = some "password_reset" then payload.email else none
  | none => none

/-! ## TOTP (`SecurityManager.verify_mfa_token`, security.py lines 336-348)

pyotp computes the one-time code as a deterministic function of the shared
secret and the 30-second timestep.  The HMAC internals are out of scope; the
code value is modelled as an abstract deterministic function of (secret,
timestep), injective in the timestep for a fixed secret, which is pyotp's
observable behaviour. -/

/-- Modelled TOTP code for a secret at a 30-second timestep. -/
def totp_at (secret : String) (step : Nat) : String :=
  secret ++ "@" ++ toString step

/-- Verify a TOTP code (`SecurityManager.verify_mfa_token`):
`pyotp.TOTP(secret).verify(token, valid_window=1)` accepts the code of the
current 30-second timestep or of the immediately adjacent ones. -/
def verify_mfa_token (secret token : String) (now : Nat) : Bool :=
  let step := now / 30
  token == totp_at secret (step - 1) || token == totp_at secret step ||
    token == totp_at secret (step + 1)

/-! ## User records (`backend/app/models/user.py`) -/

/-- Account status (`UserStatus`). -/
inductive UserStatus where
  | active
  | inactive
  | suspended
  | pending_verification
deriving DecidableEq, Repr

/-- MFA settings embedded in a user record (`UserMFA`; the `method` and
`backup_codes` fields are not touched by the modelled flows). -/
structure UserMFA where
  enabled : Bool := false
  secret : Option String := none
  last_used : Option Nat := none
deriving DecidableEq, Repr

/-- Activity counters embedded in a user record (`UserActivity`). -/
structure UserActivity where
  last_login : Option Nat := none
  last_active : Option Nat := none
  login_count : Nat := 0
  failed_login_attempts : Nat := 0
  last_failed_login : Option Nat := none
deriving DecidableEq, Repr

/-- User document (`User` in models/user.py), restricted to the fields the
modelled flows read or write. -/
structure AuthUser where
  id : String
  email : String
  full_name : String
  password_hash : BcryptHash
  role : String
  permissions : List String := []
  custom_permissions : List String := []
  status : UserStatus := .pending_verification
  is_email_verified : Bool := false
  email_verification_token : Option Token := none
  mfa : UserMFA := {}
  password_reset_token : Option Token := none
  password_reset_expires : Option Nat := none
  activity : UserActivity := {}
  created_at : Nat := 0
  updated_at : Nat := 0
deriving DecidableEq, Repr

/-- `User.find_one(User.email == e)`: first stored record with that email. -/
def findOneByEmail (db : List AuthUser) (e : String) : Option AuthUser :=
  db.find? fun u => u.email == e

/-- `User.find_one(User.id == i)`. -/
def findOneById (db : List AuthUser) (i : String) : Option AuthUser :=
  db.find? fun u => u.id == i

/-- `user.save()`: replace the stored record with the same id. -/
def saveUser (db : List AuthUser) (u : AuthUser) : List AuthUser :=
  db.map fun v => if v.id == u.id then u else v

/-! ## Session manager (`backend/app/core/database.py`, SessionManager)

Sessions live in Redis as hashes keyed by `session:<uuid>`.  The store is
modelled as the list of stored records together with a `failing` flag: when
`failing` is true every underlying Redis operation raises (connection
failure), which `CacheManager`/`SessionManager` catch internally. -/

/-- Stored session hash (`create_session` session_data after the update on
database.py lines 375-397). -/
structure SessionRecord where
  user_id : String
  email : String
  role : String
  login_time : Nat
  created_at : Nat
  session_id : String
deriving DecidableEq, Repr

/-- Redis-backed session store. -/
structure SessionStore where
  sessions : List (String × SessionRecord) := []
  failing : Bool := false
deriving DecidableEq, Repr

/-- Create a session (`SessionManager.create_session`, database.py lines
375-397): generate a fresh id (passed in), write the hash with a TTL, and
return the id.  `CacheManager.set_hash` catches store failures and returns
`False`, which `create_session` ignores, so the id is returned even when the
write failed. -/
def create_session (st : SessionStore) (freshId : String) (user_id : String)
    (email role : String) (login_time now : Nat) : String × SessionStore :=
  let record : SessionRecord :=
    { user_id := user_id, email := email, role := role, login_time := login_time,
      created_at := now, session_id := freshId }
  if st.failing then
    (freshId, st)
  else
    (freshId, { st with sessions := st.sessions ++ [("session:" ++ freshId, record)] })

/-- Delete every session of a user (`SessionManager.delete_user_sessions`,
database.py lines 440-464): scan the session namespace and delete matching
records, returning the count; any store exception is caught, logged, and
turned into a count of 0 with no deletion performed. -/
def delete_user_sessions (st : SessionStore) (user_id : String) : Nat × SessionStore :=
  if st.failing then
    (0, st)
  else
    let victims := st.sessions.filter fun kv => kv.2.user_id == user_id
    (victims.length, { st with sessions := st.sessions.filter fun kv => ¬ kv.2.user_id == user_id })

/-! ## Auth endpoints (`backend/app/api/v1/auth.py`)

Each endpoint is a function of the stores and the request; fresh randomness
(bcrypt salt, session id) and the clock are explicit parameters.  Background
tasks (emails, audit log) have no effect on the modelled state and are
dropped.  A raised `HTTPException` is an `Except.error`. -/

/-- Registration request body (`UserCreate`). -/
structure RegisterRequest where
  email : String
  full_name : String
  password : String
  department : Option String := none
  job_title : Option String := none
deriving DecidableEq, Repr

/-- Success payload of `register` (auth.py lines 110-118), restricted to the
fields with modelled content. -/
structure RegisterResponse where
  success : Bool
  message : String
  user_id : String
  email : String
deriving DecidableEq, Repr

/-- Login request body (`UserLogin`). -/
structure UserLogin where
  email : String
  password : String
  remember_me : Bool := false
deriving DecidableEq, Repr

/-- Full token response (`TokenResponse` plus the saved user snapshot). -/
structure TokenResponse where
  access_token : Token
  refresh_token : Token
  expires_in : Nat
  user : AuthUser
deriving DecidableEq, Repr

/-- MFA challenge dictionary returned by `login` when MFA is enabled
(auth.py lines 262-267). -/
structure MfaChallengeResponse where
  success : Bool
  mfa_required : Bool
  mfa_token : Token
  message : String
deriving DecidableEq, Repr

/-- Result of the `login` endpoint. -/
inductive LoginResult where
  | failure (e : HTTPError)
  | challenge (r : MfaChallengeResponse)
  | tokens (r : TokenResponse)
deriving DecidableEq, Repr

/-- Generic success payload (`success` flag and message). -/
structure SimpleResponse where
  success : Bool
  message : String
deriving DecidableEq, Repr

/-- Register a new user (`register`, auth.py lines 47-125).  The body runs
inside `try ... except Exception`, and unlike the sibling endpoints this
handler has no `except HTTPException: raise` clause, so the duplicate-email
`HTTPException(400)` raised inside the body is itself caught by the blanket
handler and replaced by a generic 500 "Registration failed". -/
def register (s : Settings) (db : List AuthUser) (req : RegisterRequest)
    (now salt : Nat) (freshId : String) :
    Except HTTPError RegisterResponse × List AuthUser :=
  -- try block
  let inner : Except HTTPError (RegisterResponse × List AuthUser) :=
    match findOneByEmail db req.email with
    | some _ => .error { status := 400, detail := "User with this email already exists" }
    | none =>
      let password_hash := hash_password salt req.password
      let verification_token := create_email_verification_token s req.email now
      let user : AuthUser :=
        { id := freshId, email := req.email, full_name := req.full_name,
          password_hash := password_hash, role := "viewer",
          permissions := [], custom_permissions := [],
          status := .pending_verification,
          email_verification_token := some verification_token,
          created_at := now, updated_at := now }
      .ok ({ success := true,
             message := "Registration successful. Please verify your email.",
             user_id := freshId, email := req.email }, db ++ [user])
  -- `except Exception` blanket handler (auth.py lines 120-125): it also
  -- catches the HTTPException raised above
  match inner with
  | .error _ => (.error { status := 500, detail := "Registration failed" }, db)
  | .ok (resp, db1) => (.ok resp, db1)

/-- Authenticate a user (`login`, auth.py lines 194-331). -/
def login (s : Settings) (db : List AuthUser) (st : SessionStore) (req : UserLogin)
    (now : Nat) (freshSessionId : String) :
    LoginResult × List AuthUser × SessionStore :=
  match findOneByEmail db req.email with
  | none => (.failure { status := 401, detail := "Invalid email or password" }, db, st)
  | some user =>
    if ¬ verify_password req.password user.password_hash then
      -- update failed login attempts and save
      let user1 := { user with activity :=
        { user.activity with
            failed_login_attempts := user.activity.failed_login_attempts + 1,
            last_failed_login := some now } }
      (.failure { status := 401, detail := "Invalid email or password" }, saveUser db user1, st)
    else if user.status = .suspended then
      (.failure { status := 403, detail := "Account suspended" }, db, st)
    else if user.status = .pending_verification then
      (.failure { status := 403, detail := "Email verification required" }, db, st)
    else if user.mfa.enabled then
      -- temporary MFA token, 5 minute expiry (auth.py lines 249-267)
      let mfa_token := create_access_token s
        { userId := some user.id, email := some user.email, mfaRequired := true }
        (some (5 * 60)) now
      (.challenge { success := false, mfa_required := true, mfa_token := mfa_token,
                    message := "MFA verification required" }, db, st)
    else
      let token_data : TokenData :=
        { userId := some user.id, email := some user.email, role := some user.role,
          permissions := user.permissions ++ user.custom_permissions }
      let access_expires := s.ACCESS_TOKEN_EXPIRE_MINUTES * (if req.remember_me then 7 else 1) * 60
      let refresh_expires := s.REFRESH_TOKEN_EXPIRE_DAYS * (if req.remember_me then 2 else 1) * 86400
      let access_token := create_access_token s token_data (some access_expires) now
      let refresh_token := create_refresh_token s token_data (some refresh_expires) now
      let user1 := { user with activity :=
        { user.activity with
            last_login := some now
            last_active := some now
            login_count := user.activity.login_count + 1
            failed_login_attempts := 0 } }
      let db1 := saveUser db user1
      let (_, st1) := create_session st freshSessionId user.id user.email user.role now now
      (.tokens { access_token := access_token, refresh_token := refresh_token,
                 expires_in := access_expires, user := user1 }, db1, st1)

/-- Complete MFA authentication (`verify_mfa`, auth.py lines 334-420).  Note
that this handler creates no session. -/
def verify_mfa (s : Settings) (db : List AuthUser) (st : SessionStore)
    (mfa_token : Token) (code : String) (now : Nat) :
    Except HTTPError TokenResponse × List AuthUser × SessionStore :=
  match verify_token s now mfa_token with
  | none => (.error credentialsError, db, st)
  | some token_data =>
    if ¬ token_data.mfaRequired then
      (.error { status := 400, detail := "Invalid MFA token" }, db, st)
    else
      match token_data.userId with
      | none =>
        -- `token_data["user_id"]` raises KeyError, caught by the blanket
        -- `except Exception` handler (auth.py lines 415-420)
        (.error { status := 500, detail := "MFA verification failed" }, db, st)
      | some uid =>
        match findOneById db uid with
        | none => (.error { status := 404, detail := "User not found" }, db, st)
        | some user =>
          match user.mfa.secret with
          | none =>
            -- `pyotp.TOTP(None)` raises, caught by the blanket handler
            (.error { status := 500, detail := "MFA verification failed" }, db, st)
          | some secret =>
            if ¬ verify_mfa_token secret code now then
              (.error { status := 401, detail := "Invalid MFA code" }, db, st)
            else
              let token_data1 : TokenData :=
                { userId := some user.id, email := some user.email, role := some user.role,
                  permissions := user.permissions ++ user.custom_permissions }
              let access_token := create_access_token s token_data1 none now
              let refresh_token := create_refresh_token s token_data1 none now
              let user1 := { user with
                mfa := { user.mfa with last_used := some now }
                activity := { user.activity with
                  last_login := some now
                  last_active := some now
                  login_count := user.activity.login_count + 1 } }
              (.ok { access_token := access_token, refresh_token := refresh_token,
                     expires_in := s.ACCESS_TOKEN_EXPIRE_MINUTES * 60, user := user1 },
               saveUser db user1, st)

/-- Log out the authenticated user (`logout`, auth.py lines 491-523): delete
all of the user's sessions and report success.  `delete_user_sessions` never
raises (it catches store failures internally), so the handler's `except
Exception` branch is unreachable and the endpoint always succeeds. -/
def logout (user_id : String) (st : SessionStore) : SimpleResponse × SessionStore :=
  let (_, st1) := delete_user_sessions st user_id
  ({ success := true, message := "Logged out successfully" }, st1)

/-- Request a password reset (`request_password_reset`, auth.py lines
526-583). -/
def request_password_reset (s : Settings) (db : List AuthUser) (email : String)
    (now : Nat) : SimpleResponse × List AuthUser :=
  match findOneByEmail db email with
  | none =>
    -- do not reveal whether the email exists
    ({ success := true, message := "If the email exists, a password reset link has been sent" }, db)
  | some user =>
    let reset_token := create_password_reset_token s email now
    let user1 := { user with
                   password_reset_token := some reset_token
                   password_reset_expires := some (now + 3600) }
    ({ success := true, message := "If the email exists, a password reset link has been sent" },
     saveUser db user1)

/-- Confirm a password reset (`confirm_password_reset`, auth.py lines
586-655). -/
def confirm_password_reset (s : Settings) (db : List AuthUser) (st : SessionStore)
    (token : Token) (new_password : String) (now salt : Nat) :
    Except HTTPError SimpleResponse × List AuthUser × SessionStore :=
  match verify_password_reset_token s now token with
  | none => (.error { status := 400, detail := "Invalid or expired reset token" }, db, st)
  | some email =>
    match findOneByEmail db email with
    | none => (.error { status := 404, detail := "User not found" }, db, st)
    | some user =>
      -- `if (user.password_reset_expires and user.password_reset_expires < now)`
      if (user.password_reset_expires.map fun t => decide (t < now)).getD false then
        (.error { status := 400, detail := "Reset token has expired" }, db, st)
      else
        let user1 := { user with
          password_hash := hash_password salt new_password,
          password_reset_token := none,
          password_reset_expires := none,
          updated_at := now }
        let db1 := saveUser db user1
        let (_, st1) := delete_user_sessions st user.id
        (.ok { success := true, message := "Password reset successfully" }, db1, st1)

/-! ## RBAC (`backend/app/core/security.py` lines 390-481) -/

/-- Static role table `ROLE_PERMISSIONS` (security.py lines 427-454), with
the `Permissions` constants inlined as their string values. -/
def ROLE_PERMISSIONS : List (String × List String) :=
  [("admin",
    ["read:data", "write:data", "delete:data",
     "read:collectors", "write:collectors", "execute:collectors",
     "read:reports", "write:reports", "share:reports",
     "read:users", "write:users", "admin:users",
     "read:organization", "write:organization", "admin:organization",
     "read:system", "write:system", "admin:system"]),
   ("manager",
    ["read:data", "write:data",
     "read:collectors", "write:collectors", "execute:collectors",
     "read:reports", "write:reports", "share:reports",
     "read:users", "write:users",
     "read:organization"]),
   ("analyst",
    ["read:data",
     "read:collectors", "execute:collectors",
     "read:reports", "write:reports"]),
   ("viewer",
    ["read:data",
     "read:collectors",
     "read:reports"]),
   ("api_user", [])]

/-- Role lookup (`get_permissions_for_role`, security.py lines 457-467):
`ROLE_PERMISSIONS.get(role, [])`. -/
def get_permissions_for_role (role : String) : List String :=
  match ROLE_PERMISSIONS.lookup role with
  | some perms => perms
  | none => []

/-- Permission membership test (`check_permission`, security.py lines
470-481): `required_permission in user_permissions`. -/
def check_permission (user_permissions : List String) (required_permission : String) : Bool :=
  user_permissions.contains required_permission

/-! ## Token acceptance by each verification path

One acceptance predicate per verification path, each restricted to what the
path checks about the token itself (before any user-record lookup):
- email verification (`verify_email` endpoint via
  `verify_email_verification_token`),
- password reset (`confirm_password_reset` via
  `verify_password_reset_token`),
- refresh (`refresh_token` endpoint, auth.py lines 423-488: `verify_token`
  plus `type == "refresh"`),
- MFA verification (`verify_mfa` endpoint, auth.py lines 346-353:
  `verify_token` plus a truthy `mfa_required` claim),
- access / current user (`get_current_user` in `api/v1/deps.py` lines 21-58:
  decode under `JWT_SECRET` plus a present `sub` claim). -/

/-- Email-verification path acceptance. -/
def emailPathAccepts (s : Settings) (now : Nat) (t : Token) : Bool :=
  (verify_email_verification_token s now t).isSome

/-- Password-reset path acceptance. -/
def resetPathAccepts (s : Settings) (now : Nat) (t : Token) : Bool :=
  (verify_password_reset_token s now t).isSome

/-- Refresh path acceptance (auth.py lines 433-440). -/
def refreshPathAccepts (s : Settings) (now : Nat) (t : Token) : Bool :=
  match verify_token s now t with
  | some payload => payload.typ == some "refresh"
  | none => false

/-- MFA-verification path acceptance (auth.py lines 346-353). -/
def mfaPathAccepts (s : Settings) (now : Nat) (t : Token) : Bool :=
  match verify_token s now t with
  | some payload => payload.mfaRequired
  | none => false

/-- Access path acceptance (`get_current_user`, deps.py lines 42-58). -/
def accessPathAccepts (s : Settings) (now : Nat) (t : Token) : Bool :=
  match jwtDecode s.JWT_SECRET now t with
  | some payload => payload.sub.isSome
  | none => false

/-- Token intents named by the spec.  The source has no `mfa_pending` claim
value: the MFA-pending token is minted through `create_access_token` with an
extra `mfa_required: True` claim and a 5-minute expiry (auth.py lines
249-267). -/
inductive TokenIntent where
  | access
  | refresh
  | email_verification
  | password_reset
  | mfa_pending
deriving DecidableEq, Repr

/-- Issue a token with a given intent, exactly as the corresponding call
site in the source issues it (login for access/refresh/mfa-pending tokens,
register for email-verification tokens, request_password_reset for reset
tokens). -/
def issueWithIntent (s : Settings) (now : Nat) (uid email role : String)
    (perms : List String) : TokenIntent → Token
  | .access => create_access_token s
      { userId := some uid, email := some email, role := some role, permissions := perms }
      none now
  | .refresh => create_refresh_token s
      { userId := some uid, email := some email, role := some role, permissions := perms }
      none now
  | .email_verification => create_email_verification_token s email now
  | .password_reset => create_password_reset_token s email now
  | .mfa_pending => create_access_token s
      { userId := some uid, email := some email, mfaRequired := true }
      (some (5 * 60)) now

/-- Acceptance predicate of the verification path expecting a given intent. -/
def verifierFor : TokenIntent → Settings → Nat → Token → Bool
  | .access => accessPathAccepts
  | .refresh => refreshPathAccepts
  | .email_verification => emailPathAccepts
  | .password_reset => resetPathAccepts
  | .mfa_pending => mfaPathAccepts

/-! ## Statement abbreviations and concrete instances used in witnesses and
counterexamples -/

/-- Temporary MFA token minted by `login` for an MFA-enabled user (auth.py
lines 251-260). -/
def mfa_challenge_token (s : Settings) (uid email : String) (now : Nat) : Token :=
  create_access_token s { userId := some uid, email := some email, mfaRequired := true }
    (some (5 * 60)) now

/-- Claim dictionary for full access/refresh tokens of a user (auth.py lines
270-275 and 379-384). -/
def fullTokenData (u : AuthUser) : TokenData :=
  { userId := some u.id, email := some u.email, role := some u.role,
    permissions := u.permissions ++ u.custom_permissions }

/-- User record as saved by a successful `verify_mfa` (auth.py lines
389-394): MFA `last_used` and the activity counters are updated. -/
def mfaUpdatedUser (u : AuthUser) (now : Nat) : AuthUser :=
  { u with
    mfa := { u.mfa with last_used := some now }
    activity := { u.activity with
      last_login := some now
      last_active := some now
      login_count := u.activity.login_count + 1 } }

/-- Check whether an endpoint result is a success (`200 OK` body rather than
a raised `HTTPException`). -/
def isOkResult (e : Except HTTPError TokenResponse) : Bool :=
  match e with
  | .ok _ => true
  | .error _ => false

/-- Concrete MFA-enabled user. -/
def c2user : AuthUser :=
  { id := "u1", email := "b@x.com", full_name := "Bob",
    password_hash := hash_password 0 "Passw0rd!", role := "viewer",
    status := .active, is_email_verified := true,
    mfa := { enabled := true, secret := some "S" } }

/-- Concrete registered user. -/
def c3user : AuthUser :=
  { id := "u0", email := "a@x.com", full_name := "Alice",
    password_hash := hash_password 0 "Passw0rd!", role := "viewer",
    status := .active, is_email_verified := true }

/-- Registration request reusing an existing email. -/
def c3req : RegisterRequest :=
  { email := "a@x.com", full_name := "Alice Again", password := "Str0ng!pass" }

/-- Concrete 72-character password meeting every strength requirement. -/
def c6P : String := "Aa1!" ++ String.mk (List.replicate 68 'a')

/-- The same password with a 73rd character appended. -/
def c6P2 : String := c6P ++ "x"

/-- Concrete user with a pending password reset. -/
def c8user : AuthUser :=
  { id := "u1", email := "a@x.com", full_name := "Alice",
    password_hash := hash_password 0 "Old!pass1", role := "viewer",
    status := .active, is_email_verified := true,
    password_reset_expires := some 3600 }

/-- Session store holding one session of that user, whose backing Redis is
unreachable (every operation raises). -/
def c8store : SessionStore :=
  { sessions := [("session:s1",
      { user_id := "u1", email := "a@x.com", role := "viewer",
        login_time := 0, created_at := 0, session_id := "s1" })],
    failing := true }

/-- Password-reset token for that user, issued at time 0. -/
def c8tok : Token := create_password_reset_token defaultSettings "a@x.com" 0

/-- Database with a single registered user, for anti-enumeration witnesses. -/
def c9db : List AuthUser := [c3user]

/-! ## Theorems -/

/-- Helper: a decode under `key` fails once the `exp` claim is in the past,
whatever the signing key. -/
theorem jwtDecode_expired (key : String) (now : Nat) (t : Token)
    (h : t.payload.exp < now) : jwtDecode key now t = none := by
  have hc : ¬ (t.key = key ∧ now ≤ t.payload.exp) := by
    rintro ⟨-, h2⟩
    omega
  simp [jwtDecode, hc]

/-- Helper: the email-verification path rejects any token whose `type` claim
is not `email_verification`. -/
theorem emailPath_rejects (s : Settings) (now : Nat) (t : Token)
    (h : ¬ t.payload.typ = some "email_verification") :
    emailPathAccepts s now t = false := by
  by_cases hc : t.key = s.SECRET_KEY ∧ now ≤ t.payload.exp <;>
    simp [emailPathAccepts, verify_email_verification_token, jwtDecode, hc, h]

/-- Helper: the password-reset path rejects any token whose `type` claim is
not `password_reset`. -/
theorem resetPath_rejects (s : Settings) (now : Nat) (t : Token)
    (h : ¬ t.payload.typ = some "password_reset") :
    resetPathAccepts s now t = false := by
  by_cases hc : t.key = s.SECRET_KEY ∧ now ≤ t.payload.exp <;>
    simp [resetPathAccepts, verify_password_reset_token, jwtDecode, hc, h]

/-- Helper: the refresh path rejects any token whose `type` claim is not
`refresh`. -/
theorem refreshPath_rejects (s : Settings) (now : Nat) (t : Token)
    (h : ¬ t.payload.typ = some "refresh") :
    refreshPathAccepts s now t = false := by
  by_cases hc : t.key = s.SECRET_KEY ∧ now ≤ t.payload.exp <;>
    simp [refreshPathAccepts, verify_token, jwtDecode, hc, h]

/-- Helper: the MFA-verification path rejects any token without a truthy
`mfa_required` claim. -/
theorem mfaPath_rejects (s : Settings) (now : Nat) (t : Token)
    (h : t.payload.mfaRequired = false) :
    mfaPathAccepts s now t = false := by
  by_cases hc : t.key = s.SECRET_KEY ∧ now ≤ t.payload.exp <;>
    simp [mfaPathAccepts, verify_token, jwtDecode, hc, h]

/-- Helper: the access path (`get_current_user`) rejects any token without a
`sub` claim. -/
theorem accessPath_rejects (s : Settings) (now : Nat) (t : Token)
    (h : t.payload.sub = none) :
    accessPathAccepts s now t = false := by
  by_cases hc : t.key = s.JWT_SECRET ∧ now ≤ t.payload.exp <;>
    simp [accessPathAccepts, jwtDecode, hc, h]

/-- C5: verifying any token strictly after its `exp` timestamp yields
Invalid on all three verification functions (`verify_token`,
`verify_email_verification_token`, `verify_password_reset_token`),
regardless of the signing key, i.e. regardless of signature validity. -/
theorem expired_token_always_invalid (s : Settings) (t : Token) (now : Nat)
    (h : t.payload.exp < now) :
    verify_token s now t = none ∧
      verify_email_verification_token s now t = none ∧
      verify_password_reset_token s now t = none := by
  refine ⟨?_, ?_, ?_⟩ <;>
    simp [verify_token, verify_email_verification_token, verify_password_reset_token,
      jwtDecode_expired _ _ _ h]

/-- C5 witness: a forged token (wrong key) and a genuine reset token, both
expired, are Invalid on every path. -/
theorem expired_token_always_invalid_witness :
    (create_password_reset_token defaultSettings "a@x.com" 0).payload.exp < 4000 ∧
      verify_token defaultSettings 4000 (create_password_reset_token defaultSettings "a@x.com" 0) = none ∧
      verify_email_verification_token defaultSettings 4000
        (create_password_reset_token defaultSettings "a@x.com" 0) = none ∧
      verify_password_reset_token defaultSettings 4000
        (create_password_reset_token defaultSettings "a@x.com" 0) = none :=
  ⟨by decide,
   expired_token_always_invalid defaultSettings
     (create_password_reset_token defaultSettings "a@x.com" 0) 4000 (by decide)⟩

/-- C10: a role outside the static role table resolves to the empty
permission list, and hence no required permission is granted through role
permissions alone: unknown roles fail closed. -/
theorem unknown_role_fails_closed (role : String)
    (h : role ∉ ["admin", "manager", "analyst", "viewer", "api_user"]) :
    get_permissions_for_role role = [] ∧
      ∀ required : String, check_permission (get_permissions_for_role role) required = false := by
  simp only [List.mem_cons, List.not_mem_nil, or_false, not_or] at h
  obtain ⟨h1, h2, h3, h4, h5⟩ := h
  have e1 : (role == "admin") = false := beq_eq_false_iff_ne.mpr h1
  have e2 : (role == "manager") = false := beq_eq_false_iff_ne.mpr h2
  have e3 : (role == "analyst") = false := beq_eq_false_iff_ne.mpr h3
  have e4 : (role == "viewer") = false := beq_eq_false_iff_ne.mpr h4
  have e5 : (role == "api_user") = false := beq_eq_false_iff_ne.mpr h5
  have hl : get_permissions_for_role role = [] := by
    simp [get_permissions_for_role, ROLE_PERMISSIONS, List.lookup, e1, e2, e3, e4, e5]
  exact ⟨hl, fun required => by simp [check_permission, hl]⟩

/-- C10 witness: the unknown role `"ghost"` gets no permissions and in
particular not `read:data`. -/
theorem unknown_role_fails_closed_witness :
    "ghost" ∉ ["admin", "manager", "analyst", "viewer", "api_user"] ∧
      get_permissions_for_role "ghost" = [] ∧
      check_permission (get_permissions_for_role "ghost") "read:data" = false :=
  ⟨by decide,
   (unknown_role_fails_closed "ghost" (by decide)).1,
   (unknown_role_fails_closed "ghost" (by decide)).2 "read:data"⟩

/-- C6 counterexample: a 73-character password distinct from the hashed
72-character password still verifies, because bcrypt consumes only the first
72 bytes; the hashed password meets every strength rule. -/
theorem bcrypt_truncation_counterexample :
    (validate_password_strength defaultSettings c6P).valid = true ∧
      c6P2 ≠ c6P ∧
      verify_password c6P2 (hash_password 0 c6P) = true := by
  refine ⟨by decide, by decide, by decide⟩

/-- C6 (amended): hashing then verifying the same password succeeds, and
verification fails exactly for passwords that differ from the hashed one
within the first 72 bytes; differences beyond the 72nd byte are invisible to
bcrypt. -/
theorem verify_hash_roundtrip (salt : Nat) (p p2 : String)
    (h : p2.toList.take BCRYPT_TRUNCATE ≠ p.toList.take BCRYPT_TRUNCATE) :
    verify_password p (hash_password salt p) = true ∧
      verify_password p2 (hash_password salt p) = false := by
  constructor
  · simp [verify_password, hash_password]
  · simp only [verify_password, hash_password]
    exact beq_eq_false_iff_ne.mpr h

/-- C6 witness: round trip on a concrete password, and rejection of a
password differing within the first 72 bytes. -/
theorem verify_hash_roundtrip_witness :
    ("Wrong#99".toList.take BCRYPT_TRUNCATE ≠ "Passw0rd!".toList.take BCRYPT_TRUNCATE) ∧
      verify_password "Passw0rd!" (hash_password 7 "Passw0rd!") = true ∧
      verify_password "Wrong#99" (hash_password 7 "Passw0rd!") = false :=
  ⟨by decide,
   (verify_hash_roundtrip 7 "Passw0rd!" "Wrong#99" (by decide)).1,
   (verify_hash_roundtrip 7 "Passw0rd!" "Wrong#99" (by decide)).2⟩

/-- C9: the success payload of a password-reset request is the same generic
message whether or not the email matches a stored user, so the response
reveals nothing about the email's existence. -/
theorem reset_request_uniform_response (s : Settings) (db : List AuthUser)
    (e1 e2 : String) (now1 now2 : Nat)
    (_h1 : (findOneByEmail db e1).isSome = true)
    (h2 : findOneByEmail db e2 = none) :
    (request_password_reset s db e1 now1).1 = (request_password_reset s db e2 now2).1 := by
  cases hf : findOneByEmail db e1 <;>
    simp [request_password_reset, hf, h2]

/-- C9 witness: a database with one user; requesting a reset for that user's
email and for an unknown email yields identical payloads. -/
theorem reset_request_uniform_response_witness :
    (findOneByEmail c9db "a@x.com").isSome = true ∧
      findOneByEmail c9db "nobody@x.com" = none ∧
      (request_password_reset defaultSettings c9db "a@x.com" 5).1 =
        (request_password_reset defaultSettings c9db "nobody@x.com" 99).1 :=
  ⟨by decide, by decide,
   reset_request_uniform_response defaultSettings c9db "a@x.com" "nobody@x.com" 5 99
     (by decide) (by decide)⟩

/-- C7: confirming a password reset with a token past its expiry fails with
the 400 invalid-or-expired error before any mutation: the user database
(including the stored password hash) and the session store are returned
unchanged. -/
theorem confirm_reset_expired_token (s : Settings) (db : List AuthUser)
    (st : SessionStore) (t : Token) (new_password : String) (now salt : Nat)
    (h : t.payload.exp < now) :
    confirm_password_reset s db st t new_password now salt =
      (.error { status := 400, detail := "Invalid or expired reset token" }, db, st) := by
  simp [confirm_password_reset, verify_password_reset_token, jwtDecode_expired _ _ _ h]

/-- C7 witness: a reset token issued at time 0 (1-hour expiry) presented at
time 4000 is rejected and both stores are unchanged. -/
theorem confirm_reset_expired_token_witness :
    (create_password_reset_token defaultSettings "a@x.com" 0).payload.exp < 4000 ∧
      confirm_password_reset defaultSettings [c8user] c8store
        (create_password_reset_token defaultSettings "a@x.com" 0) "N3w!pass1" 4000 1 =
        (.error { status := 400, detail := "Invalid or expired reset token" },
         [c8user], c8store) :=
  ⟨by decide,
   confirm_reset_expired_token defaultSettings [c8user] c8store
     (create_password_reset_token defaultSettings "a@x.com" 0) "N3w!pass1" 4000 1 (by decide)⟩

/-- C8 counterexample: with the session store unreachable, a password-reset
confirmation still reports success (no service-unavailable error is
surfaced) and the failed session deletion is silently ignored: the user's
sessions are all still in the store. -/
theorem store_failure_swallowed_counterexample :
    c8store.failing = true ∧
      (confirm_password_reset defaultSettings [c8user] c8store c8tok "N3w!pass1" 10 1).1 =
        .ok { success := true, message := "Password reset successfully" } ∧
      (confirm_password_reset defaultSettings [c8user] c8store c8tok "N3w!pass1" 10 1).2.2 =
        c8store := by
  refine ⟨rfl, rfl, rfl⟩

/-- C8 (amended): a session-store failure during session deletion is caught
inside `delete_user_sessions`, logged, and reported as a deletion count of 0
with no state change; `logout` then still reports success.  Store failures
are not surfaced to the caller of these operations. -/
theorem session_store_failure_not_surfaced (st : SessionStore) (user_id : String)
    (h : st.failing = true) :
    delete_user_sessions st user_id = (0, st) ∧
      logout user_id st = ({ success := true, message := "Logged out successfully" }, st) := by
  simp [delete_user_sessions, logout, h]

/-- C8 witness: the failing concrete store. -/
theorem session_store_failure_not_surfaced_witness :
    c8store.failing = true ∧
      delete_user_sessions c8store "u1" = (0, c8store) ∧
      logout "u1" c8store = ({ success := true, message := "Logged out successfully" }, c8store) :=
  ⟨by decide,
   (session_store_failure_not_surfaced c8store "u1" (by decide)).1,
   (session_store_failure_not_surfaced c8store "u1" (by decide)).2⟩

/-- C3: registering with the email of an existing user is rejected with no
new record persisted, but the `HTTPException(400, "User with this email
already exists")` raised inside the handler is caught by the handler's own
blanket `except Exception` clause (the only endpoint in the file without an
`except HTTPException: raise` guard) and replaced by the generic
`HTTPException(500, "Registration failed")`: the caller gets a generic
server failure instead of the actionable duplicate-email error. -/
theorem register_duplicate_email_generic_500 :
    register defaultSettings [c3user] c3req 0 1 "u9" =
      (.error { status := 500, detail := "Registration failed" }, [c3user]) := by
  rfl

/-- C4 counterexample: a password satisfying all five requirements, of
length at least 12 and with no repeated 3-character substring, scores 120,
outside the claimed 0-100 range. -/
theorem password_score_exceeds_100_counterexample :
    (validate_password_strength defaultSettings "Abcdefgh1!xy").valid = true ∧
      ¬ (validate_password_strength defaultSettings "Abcdefgh1!xy").score ≤ 100 := by
  refine ⟨by decide, by decide⟩

/-- Helper: valid/score bookkeeping of the strength check, abstracted over
the five requirement outcomes and the two bonus amounts. -/
theorem strength_flags_arith (b1 b2 b3 b4 b5 : Bool) (n1 n2 : Nat)
    (hn1 : n1 ≤ 10) (hn2 : n2 ≤ 10) :
    ((b1 && (b1 && b2 && b3 && b4 && b5)) = true ↔
      (b1 = true ∧ b2 = true ∧ b3 = true ∧ b4 = true ∧ b5 = true)) ∧
    (if b1 then 20 else 0) + (if b2 then 20 else 0) + (if b3 then 20 else 0) +
      (if b4 then 20 else 0) + (if b5 then 20 else 0) + n1 + n2 =
      20 * ((if b1 then 1 else 0) + (if b2 then 1 else 0) + (if b3 then 1 else 0) +
        (if b4 then 1 else 0) + (if b5 then 1 else 0)) + n1 + n2 ∧
    (if b1 then 20 else 0) + (if b2 then 20 else 0) + (if b3 then 20 else 0) +
      (if b4 then 20 else 0) + (if b5 then 20 else 0) + n1 + n2 ≤ 120 := by
  cases b1 <;> cases b2 <;> cases b3 <;> cases b4 <;> cases b5 <;>
    refine ⟨by simp, ?_, ?_⟩ <;> simp <;> omega

/-- C4 (amended): `valid` is true exactly when all five requirements hold;
each satisfied requirement contributes exactly 20 points to the score, but
two further bonuses of 10 points each (length at least 12; no 3-character
substring repeated later in the password) put the score range at 0-120, not
0-100. -/
theorem validate_password_strength_spec (s : Settings) (password : String) :
    ((validate_password_strength s password).valid = true ↔
      ((validate_password_strength s password).min_length = true ∧
       (validate_password_strength s password).has_upper = true ∧
       (validate_password_strength s password).has_lower = true ∧
       (validate_password_strength s password).has_digit = true ∧
       (validate_password_strength s password).has_special = true)) ∧
    (validate_password_strength s password).score =
      20 * ((if (validate_password_strength s password).min_length then 1 else 0) +
            (if (validate_password_strength s password).has_upper then 1 else 0) +
            (if (validate_password_strength s password).has_lower then 1 else 0) +
            (if (validate_password_strength s password).has_digit then 1 else 0) +
            (if (validate_password_strength s password).has_special then 1 else 0)) +
      (if 12 ≤ password.toList.length then 10 else 0) +
      (if has_repeated_triple password.toList then 0 else 10) ∧
    (validate_password_strength s password).score ≤ 120 := by
  have aux := strength_flags_arith
    (decide (s.PASSWORD_MIN_LENGTH ≤ password.toList.length))
    (password.toList.any Char.isUpper) (password.toList.any Char.isLower)
    (password.toList.any Char.isDigit) (password.toList.any fun c => special_chars.contains c)
    (if 12 ≤ password.toList.length then 10 else 0)
    (if has_repeated_triple password.toList then 0 else 10)
    (by split <;> omega) (by split <;> omega)
  simpa only [validate_password_strength] using aux

/-- C1: a token issued with one intent is rejected by every verification
path that expects a different intent; in particular a password-reset token
is never accepted by email verification and vice versa, and the MFA-pending
token (which the source mints as an `access`-typed JWT with an extra
`mfa_required` claim) is accepted by the MFA-verification path and by no
other path. -/
theorem token_intent_isolation (s : Settings) (now : Nat) (uid email role : String)
    (perms : List String) (X Y : TokenIntent) (hXY : X ≠ Y) :
    verifierFor Y s now (issueWithIntent s now uid email role perms X) = false ∧
      verifierFor TokenIntent.mfa_pending s now
        (issueWithIntent s now uid email role perms TokenIntent.mfa_pending) = true := by
  constructor
  · cases X <;> cases Y <;> first
    | exact absurd rfl hXY
    | exact accessPath_rejects s now _ (by
        simp [issueWithIntent, create_access_token, create_refresh_token,
          create_email_verification_token, create_password_reset_token, TokenData.toPayload])
    | exact refreshPath_rejects s now _ (by
        simp [issueWithIntent, create_access_token, create_refresh_token,
          create_email_verification_token, create_password_reset_token, TokenData.toPayload])
    | exact emailPath_rejects s now _ (by
        simp [issueWithIntent, create_access_token, create_refresh_token,
          create_email_verification_token, create_password_reset_token, TokenData.toPayload])
    | exact resetPath_rejects s now _ (by
        simp [issueWithIntent, create_access_token, create_refresh_token,
          create_email_verification_token, create_password_reset_token, TokenData.toPayload])
    | exact mfaPath_rejects s now _ (by
        simp [issueWithIntent, create_access_token, create_refresh_token,
          create_email_verification_token, create_password_reset_token, TokenData.toPayload])
  · simp [verifierFor, mfaPathAccepts, verify_token, jwtDecode, issueWithIntent,
      create_access_token, TokenData.toPayload, Nat.le_add_right]

/-- C1 witness: a password-reset token is rejected by the email-verification
path, and the MFA-pending token is accepted by the MFA path. -/
theorem token_intent_isolation_witness :
    TokenIntent.password_reset ≠ TokenIntent.email_verification ∧
      verifierFor TokenIntent.email_verification defaultSettings 0
        (issueWithIntent defaultSettings 0 "u1" "a@x.com" "viewer" []
          TokenIntent.password_reset) = false ∧
      verifierFor TokenIntent.mfa_pending defaultSettings 0
        (issueWithIntent defaultSettings 0 "u1" "a@x.com" "viewer" []
          TokenIntent.mfa_pending) = true :=
  ⟨by decide,
   (token_intent_isolation defaultSettings 0 "u1" "a@x.com" "viewer" []
     TokenIntent.password_reset TokenIntent.email_verification (by decide)).1,
   (token_intent_isolation defaultSettings 0 "u1" "a@x.com" "viewer" []
     TokenIntent.password_reset TokenIntent.email_verification (by decide)).2⟩

/-- C2 counterexample: for a concrete MFA-enabled user, login with the
correct password returns the MFA challenge and `verify_mfa` with the correct
TOTP code succeeds — but no session is created: the session store is empty
before and still empty after the whole flow. -/
theorem mfa_flow_creates_no_session_counterexample :
    (login defaultSettings [c2user] { sessions := [], failing := false }
        { email := "b@x.com", password := "Passw0rd!", remember_me := false } 0 "sid").2.2 =
      { sessions := [], failing := false } ∧
    isOkResult (verify_mfa defaultSettings [c2user] { sessions := [], failing := false }
        (mfa_challenge_token defaultSettings "u1" "b@x.com" 0) (totp_at "S" 2) 60).1 = true ∧
    (verify_mfa defaultSettings [c2user] { sessions := [], failing := false }
        (mfa_challenge_token defaultSettings "u1" "b@x.com" 0) (totp_at "S" 2) 60).2.2 =
      { sessions := [], failing := false } := by
  refine ⟨by rfl, by rfl, by rfl⟩

/-- C2 (amended): for an MFA-enabled user, login with the correct password
returns an MFA challenge whose token has a 5-minute expiry and no embedded
permissions, creating no session and leaving the user database unchanged;
a `verify_mfa` call with that token and a correct TOTP code (within the
token's lifetime) issues full access and refresh tokens and saves the user
with MFA `last_used` updated — but creates no session either: the session
store is unchanged by both steps. -/
theorem mfa_login_flow (s : Settings) (db : List AuthUser) (st : SessionStore)
    (req : UserLogin) (u : AuthUser) (sec : String) (now now2 : Nat) (fresh : String)
    (hfind : findOneByEmail db req.email = some u)
    (hpw : verify_password req.password u.password_hash = true)
    (hs1 : u.status ≠ UserStatus.suspended)
    (hs2 : u.status ≠ UserStatus.pending_verification)
    (hmfa : u.mfa.enabled = true)
    (hsec : u.mfa.secret = some sec)
    (hfind2 : findOneById db u.id = some u)
    (hnow2 : now2 ≤ now + 5 * 60) :
    login s db st req now fresh =
      (.challenge { success := false, mfa_required := true,
                    mfa_token := mfa_challenge_token s u.id u.email now,
                    message := "MFA verification required" }, db, st) ∧
    (mfa_challenge_token s u.id u.email now).payload.permissions = [] ∧
    (mfa_challenge_token s u.id u.email now).payload.exp = now + 5 * 60 ∧
    verify_mfa s db st (mfa_challenge_token s u.id u.email now) (totp_at sec (now2 / 30)) now2 =
      (.ok { access_token := create_access_token s (fullTokenData u) none now2,
             refresh_token := create_refresh_token s (fullTokenData u) none now2,
             expires_in := s.ACCESS_TOKEN_EXPIRE_MINUTES * 60,
             user := mfaUpdatedUser u now2 },
       saveUser db (mfaUpdatedUser u now2), st) := by
  refine ⟨?_, by rfl, by rfl, ?_⟩
  · simp only [login, hfind]
    simp [hpw, hs1, hs2, hmfa, mfa_challenge_token]
  · simp only [verify_mfa, verify_token, jwtDecode, mfa_challenge_token,
      create_access_token, TokenData.toPayload]
    simp [hnow2, hfind2, hsec, verify_mfa_token, fullTokenData, mfaUpdatedUser,
      create_access_token, create_refresh_token, TokenData.toPayload]

/-- C2 witness: the concrete MFA user, with login at time 0 and MFA
verification at time 60 with the timestep-2 code. -/
theorem mfa_login_flow_witness :
    login defaultSettings [c2user] { sessions := [], failing := false }
        { email := "b@x.com", password := "Passw0rd!", remember_me := false } 0 "sid" =
      (.challenge { success := false, mfa_required := true,
                    mfa_token := mfa_challenge_token defaultSettings "u1" "b@x.com" 0,
                    message := "MFA verification required" },
       [c2user], { sessions := [], failing := false }) ∧
    (mfa_challenge_token defaultSettings "u1" "b@x.com" 0).payload.permissions = [] ∧
    (mfa_challenge_token defaultSettings "u1" "b@x.com" 0).payload.exp = 300 ∧
    verify_mfa defaultSettings [c2user] { sessions := [], failing := false }
        (mfa_challenge_token defaultSettings "u1" "b@x.com" 0) (totp_at "S" 2) 60 =
      (.ok { access_token := create_access_token defaultSettings (fullTokenData c2user) none 60,
             refresh_token := create_refresh_token defaultSettings (fullTokenData c2user) none 60,
             expires_in := 3600,
             user := mfaUpdatedUser c2user 60 },
       saveUser [c2user] (mfaUpdatedUser c2user 60), { sessions := [], failing := false }) :=
  mfa_login_flow defaultSettings [c2user] { sessions := [], failing := false }
    { email := "b@x.com", password := "Passw0rd!", remember_me := false }
    c2user "S" 0 60 "sid" rfl (by decide) (by decide) (by decide) rfl rfl rfl (by decide)
